import Mathlib

/-!
# Verification development for the adobe-mcp repository

This file gives a shallow embedding of the parts of the repository that the
frozen claims are about:

* the InDesign MCP server's operation functions
  (`src/adobe_mcp/indesign/server.py`), embedded one Lean definition per
  Python tool function;
* the command dispatch bridge (`createCommand`, `sendCommand`,
  `socket_client.configure`, `send_message_blocking`).  The bridge's own
  source (`src/adobe_mcp/shared/core.py` and
  `src/adobe_mcp/shared/socket_client.py`) is not present in the repository
  snapshot — only the re-exports in `src/adobe_mcp/shared/__init__.py` are —
  so those definitions are modelled from the specification (sections 3, 4.2,
  4.3, 4.4 and 7 of the spec) and say so in their doc comments;
* the three auxiliary CLI scripts under
  `src/skills/adobe-indesign-assistant/scripts/`
  (`estimate_pages.py`, `preflight_pdf.py`, `validate_document.py`),
  embedded as pure functions.

Machine integers do not overflow in any of the embedded code paths
(Python integers are unbounded), so `Int`/`Nat`/`ℚ` are used directly.
Python float arithmetic in the scripts is idealised as exact rational
arithmetic, with the one genuinely non-rational operation (`** 0.5`) and the
builtin `float()` parser passed in as explicit function parameters.
-/

namespace AdobeMcp

/-- JSON-like parameter values: the open, arbitrarily nested mapping type
carried by a command's `parameters` field (spec section 3). -/
inductive Value where
  | null
  | bool (b : Bool)
  | num (n : Int)
  | str (s : String)
  | arr (elems : List Value)
  | obj (fields : List (String × Value))

/-- Look a key up in an object value (`none` on non-objects and missing
keys); used only to state properties, not by the embedded code. -/
def lookupKey (v : Value) (key : String) : Option Value :=
  match v with
  | .obj fields => fields.lookup key
  | _ => none

/-- A Command as on the wire: `{ name, id, parameters }` (spec section 3). -/
structure Command where
  name : String
  id : Nat
  parameters : Value

/-- Reply status of a well-formed proxy response. -/
inductive Status where
  | ok
  | error
  deriving DecidableEq

/-- Application-level error payload of a `status=error` reply. -/
structure AppErr where
  kind : String
  message : String
  deriving DecidableEq

/-- A Response as on the wire:
`{ id, status, result | error }` (spec section 3). -/
structure Response where
  id : Nat
  status : Status
  result : Option Value
  error : Option AppErr

/-- Classification of a failure as observed by callers (spec section 7).
Transport-layer failures get their own constructors; a well-formed
`status=error` reply is classified `applicationError` and carries the
proxy-supplied kind — by construction distinct from the transport
classifications. -/
inductive ErrorKind where
  | timeout
  | transportUnavailable
  | protocolError
  | applicationError (kind : String)
  deriving DecidableEq

/-- The normalized result shape every operation function returns
(spec section 4.4): `{ success, data, error }`, the error field holding the
classification and a message. -/
structure Outcome where
  success : Bool
  data : Option Value
  error : Option (ErrorKind × String)

/-- Endpoint Configuration (spec section 3): application identity,
proxy address, timeout in seconds. -/
structure EndpointConfig where
  app : String
  url : String
  timeout : Nat

/-- Modelled from the spec: behaviour of the external proxy over one
request/response exchange, as seen by the blocking transport client
(spec section 4.3): the endpoint may be unreachable, may answer with
undecodable bytes, or may deliver a stream of well-formed replies, each
tagged with its arrival time in seconds after the send. -/
inductive ProxyBehavior where
  | unreachable
  | garbled
  | replies (arrivals : List (Nat × Response))

/-- Modelled from the spec: transport-level failures surfaced by the
blocking send (spec section 4.3, section 7). -/
inductive TransportError where
  | timeout
  | transportUnavailable
  | protocolError
  deriving DecidableEq

/-- Modelled from the spec (section 4.2): `createCommand` builds a Command
from an operation name and a parameter mapping, attaching a fresh
correlation identity.  The identity source is threaded explicitly
(`nextId`) instead of hidden mutable state. -/
def createCommand (nextId : Nat) (name : String) (parameters : Value) :
    Command :=
  { name := name, id := nextId, parameters := parameters }

/-- Scan the replies that arrive within the timeout window, in arrival
order, for the first whose correlation id matches the sent command;
non-matching well-formed replies are discarded (spec section 8 allows
discarding).  No match within the window is a `timeout`. -/
def scanReplies (cid : Nat) : List (Nat × Response) →
    Except TransportError Response
  | [] => .error .timeout
  | (_, r) :: rest =>
      if r.id = cid then .ok r else scanReplies cid rest

/-- Modelled from the spec (section 4.3): `send_message_blocking` — the
Transport Client's blocking send, missing from the snapshot
(`src/adobe_mcp/shared/socket_client.py`).  It serializes and writes the
command, then waits up to `cfg.timeout` for a reply with a matching id:
unreachable endpoint gives `transportUnavailable`, an undecodable reply
gives `protocolError`, no matching reply within the window gives `timeout`,
and a matching well-formed reply is returned whatever its status. -/
def send_message_blocking (cfg : EndpointConfig) (env : ProxyBehavior)
    (cmd : Command) : Except TransportError Response :=
  match env with
  | .unreachable => .error .transportUnavailable
  | .garbled => .error .protocolError
  | .replies arrivals =>
      scanReplies cmd.id (arrivals.filter fun a => a.1 ≤ cfg.timeout)

/-- The ambient state a server operation runs against: the endpoint
configuration bound at module initialization, the proxy's behaviour for
this exchange, and the correlation-identity source. -/
structure Ctx where
  cfg : EndpointConfig
  env : ProxyBehavior
  nextId : Nat

/-- Message texts attached to transport-layer failures. -/
def transportErrInfo : TransportError → ErrorKind × String
  | .timeout => (.timeout, "no matching reply within the configured wait")
  | .transportUnavailable =>
      (.transportUnavailable, "endpoint unreachable or connection dropped")
  | .protocolError => (.protocolError, "reply not decodable")

/-- Modelled from the spec (sections 4.4 and 7): `sendCommand` — the
Dispatch Facade, missing from the snapshot (`src/adobe_mcp/shared/core.py`).
It delegates to the Transport Client and normalizes every outcome to the
single `Outcome` shape: transport failures and `status=error` replies both
become `success = false` with a populated error field; a `status=ok` reply
becomes `success = true` carrying the reply's result.  A reply that claims
`status=error` but carries no error payload violates the Response invariant
and is classified `protocolError`. -/
def sendCommand (ctx : Ctx) (cmd : Command) : Outcome :=
  match send_message_blocking ctx.cfg ctx.env cmd with
  | .error e =>
      { success := false, data := none, error := some (transportErrInfo e) }
  | .ok r =>
      match r.status with
      | .ok => { success := true, data := r.result, error := none }
      | .error =>
          match r.error with
          | some e =>
              { success := false, data := none,
                error := some (.applicationError e.kind, e.message) }
          | none =>
              { success := false, data := none,
                error := some (.protocolError,
                  "status=error reply without error payload") }

/-! ## InDesign server module (`src/adobe_mcp/indesign/server.py`)

Each `@mcp.tool()` function of the server is embedded as one Lean
definition of the same name.  The Python functions read the module-global
dispatch state (`createCommand`/`sendCommand` bound by `init`); the
embedding threads that state explicitly as a `Ctx` first argument.
`None`-defaulted scalar parameters become `Option` types; open `dict`/
`list` parameters stay `Value`. -/

namespace InDesign

open AdobeMcp

/-- server.py line 38. -/
def APPLICATION : String := "indesign"

/-- server.py line 39. -/
def PROXY_URL : String := "http://localhost:3001"

/-- server.py line 40. -/
def PROXY_TIMEOUT : Nat := 20

/-- The endpoint configuration the module binds at initialization
(server.py lines 42-46). -/
def serverConfig : EndpointConfig :=
  { app := APPLICATION, url := PROXY_URL, timeout := PROXY_TIMEOUT }

/-- Default `columns` argument of `create_document` (server.py line 54). -/
def columnsDefault : Value :=
  .obj [("count", .num 1), ("gutter", .num 12)]

/-- Default `margins` argument of `create_document` (server.py line 55). -/
def marginsDefault : Value :=
  .obj [("top", .num 36), ("bottom", .num 36),
        ("left", .num 36), ("right", .num 36)]

/-- Default `geometric_bounds` of `create_text_frame` (server.py
line 198). -/
def textFrameBoundsDefault : Value :=
  .arr [.num 72, .num 72, .num 500, .num 400]

/-- Default `geometric_bounds` of `create_threaded_frames` (server.py
line 275). -/
def threadedBoundsDefault : Value :=
  .arr [.num 54, .num 54, .num 594, .num 378]

/-- Encode an optional integer argument whose Python default is `None`. -/
def optNum : Option Int → Value
  | none => .null
  | some n => .num n

/-- Encode an optional open argument whose Python default is `None`. -/
def optVal : Option Value → Value
  | none => .null
  | some v => v

/-- The parameter payload `create_document` builds (server.py
lines 72-80). -/
def createDocumentParams (width height pages : Int) (facing_pages : Bool)
    (columns margins : Value) : Value :=
  .obj [("intent", .str "WEB_INTENT"),
        ("pageWidth", .num width),
        ("pageHeight", .num height),
        ("margins", margins),
        ("columns", columns),
        ("pagesPerDocument", .num pages),
        ("facingPages", .bool facing_pages)]

/-- server.py lines 50-82. -/
def create_document (ctx : Ctx) (width height : Int) (pages : Int := 0)
    (facing_pages : Bool := false) (columns : Value := columnsDefault)
    (margins : Value := marginsDefault) : Outcome :=
  sendCommand ctx (createCommand ctx.nextId "createDocument"
    (createDocumentParams width height pages facing_pages columns margins))

/-- server.py lines 84-101. -/
def get_text_frames (ctx : Ctx) (page_index : Int := 0) : Outcome :=
  sendCommand ctx (createCommand ctx.nextId "getTextFrames"
    (.obj [("pageIndex", .num page_index)]))

/-- server.py lines 103-122. -/
def get_text_frame_info (ctx : Ctx) (text_frame_index : Int)
    (page_index : Int := 0) : Outcome :=
  sendCommand ctx (createCommand ctx.nextId "getTextFrameInfo"
    (.obj [("frameIndex", .num text_frame_index),
           ("pageIndex", .num page_index)]))

/-- server.py lines 125-139. -/
def open_document (ctx : Ctx) (file_path : String) : Outcome :=
  sendCommand ctx (createCommand ctx.nextId "openDocument"
    (.obj [("filePath", .str file_path)]))

/-- server.py lines 141-150. -/
def save_document (ctx : Ctx) : Outcome :=
  sendCommand ctx (createCommand ctx.nextId "saveDocument" (.obj []))

/-- server.py lines 152-166. -/
def save_document_as (ctx : Ctx) (file_path : String) : Outcome :=
  sendCommand ctx (createCommand ctx.nextId "saveDocumentAs"
    (.obj [("filePath", .str file_path)]))

/-- server.py lines 168-182. -/
def close_document (ctx : Ctx) (save_options : String := "yes") : Outcome :=
  sendCommand ctx (createCommand ctx.nextId "closeDocument"
    (.obj [("saveOptions", .str save_options)]))

/-- server.py lines 184-194. -/
def get_document_info (ctx : Ctx) : Outcome :=
  sendCommand ctx (createCommand ctx.nextId "getDocumentInfo" (.obj []))

/-- server.py lines 197-213. -/
def create_text_frame (ctx : Ctx) (page_index : Int := 0)
    (geometric_bounds : Value := textFrameBoundsDefault) : Outcome :=
  sendCommand ctx (createCommand ctx.nextId "createTextFrame"
    (.obj [("pageIndex", .num page_index),
           ("geometricBounds", geometric_bounds)]))

/-- server.py lines 215-233. -/
def insert_text (ctx : Ctx) (text_frame_index : Int) (text : String)
    (page_index : Int := 0) : Outcome :=
  sendCommand ctx (createCommand ctx.nextId "insertText"
    (.obj [("frameIndex", .num text_frame_index),
           ("text", .str text),
           ("pageIndex", .num page_index)]))

/-- server.py lines 235-255. -/
def import_text_file (ctx : Ctx) (text_frame_index : Int)
    (file_path : String) (page_index : Int := 0)
    (insertion_point : Int := -1) : Outcome :=
  sendCommand ctx (createCommand ctx.nextId "importTextFile"
    (.obj [("frameIndex", .num text_frame_index),
           ("filePath", .str file_path),
           ("pageIndex", .num page_index),
           ("insertionPoint", .num insertion_point)]))

/-- server.py lines 257-272. -/
def remove_duplicate_frames (ctx : Ctx) : Outcome :=
  sendCommand ctx (createCommand ctx.nextId "removeDuplicateFrames"
    (.obj []))

/-- server.py lines 274-295. -/
def create_threaded_frames (ctx : Ctx) (start_page end_page : Int)
    (geometric_bounds : Value := threadedBoundsDefault) : Outcome :=
  sendCommand ctx (createCommand ctx.nextId "createThreadedFrames"
    (.obj [("startPage", .num start_page),
           ("endPage", .num end_page),
           ("geometricBounds", geometric_bounds)]))

/-- server.py lines 297-319. -/
def link_text_frames (ctx : Ctx)
    (source_frame_index target_frame_index : Int)
    (source_page_index : Int := 0) (target_page_index : Int := 0) :
    Outcome :=
  sendCommand ctx (createCommand ctx.nextId "linkTextFrames"
    (.obj [("sourceFrameIndex", .num source_frame_index),
           ("targetFrameIndex", .num target_frame_index),
           ("sourcePageIndex", .num source_page_index),
           ("targetPageIndex", .num target_page_index)]))

/-- server.py lines 321-337. -/
def get_text_content (ctx : Ctx) (text_frame_index : Int)
    (page_index : Int := 0) : Outcome :=
  sendCommand ctx (createCommand ctx.nextId "getTextContent"
    (.obj [("frameIndex", .num text_frame_index),
           ("pageIndex", .num page_index)]))

/-- server.py lines 339-355. -/
def detect_text_overflow (ctx : Ctx) (text_frame_index : Int)
    (page_index : Int := 0) : Outcome :=
  sendCommand ctx (createCommand ctx.nextId "detectTextOverflow"
    (.obj [("frameIndex", .num text_frame_index),
           ("pageIndex", .num page_index)]))

/-- server.py lines 358-367. -/
def get_paragraph_styles (ctx : Ctx) : Outcome :=
  sendCommand ctx (createCommand ctx.nextId "getParagraphStyles" (.obj []))

/-- server.py lines 369-378. -/
def get_character_styles (ctx : Ctx) : Outcome :=
  sendCommand ctx (createCommand ctx.nextId "getCharacterStyles" (.obj []))

/-- server.py lines 380-400. -/
def apply_paragraph_style (ctx : Ctx) (style_name : String)
    (text_frame_index : Int) (paragraph_range : String := "all")
    (page_index : Int := 0) : Outcome :=
  sendCommand ctx (createCommand ctx.nextId "applyParagraphStyle"
    (.obj [("styleName", .str style_name),
           ("frameIndex", .num text_frame_index),
           ("paragraphRange", .str paragraph_range),
           ("pageIndex", .num page_index)]))

/-- server.py lines 402-426. -/
def apply_character_style_to_text (ctx : Ctx) (style_name : String)
    (search_text : String) (text_frame_index : Int) (occurrence : Int := 0)
    (page_index : Int := 0) : Outcome :=
  sendCommand ctx (createCommand ctx.nextId "applyCharacterStyleToText"
    (.obj [("styleName", .str style_name),
           ("searchText", .str search_text),
           ("frameIndex", .num text_frame_index),
           ("occurrence", .num occurrence),
           ("pageIndex", .num page_index)]))

/-- server.py lines 428-444. -/
def create_paragraph_style (ctx : Ctx) (style_name : String)
    (properties : Value) : Outcome :=
  sendCommand ctx (createCommand ctx.nextId "createParagraphStyle"
    (.obj [("styleName", .str style_name),
           ("properties", properties)]))

/-- server.py lines 447-463. -/
def add_page (ctx : Ctx) (location : String := "AT_END")
    (reference_page : Option Int := none) : Outcome :=
  sendCommand ctx (createCommand ctx.nextId "addPage"
    (.obj [("location", .str location),
           ("referencePage", optNum reference_page)]))

/-- server.py lines 466-487. -/
def place_image (ctx : Ctx) (file_path : String) (page_index : Int := 0)
    (position : Option Value := none)
    (fit_option : String := "PROPORTIONALLY") : Outcome :=
  sendCommand ctx (createCommand ctx.nextId "placeImage"
    (.obj [("filePath", .str file_path),
           ("pageIndex", .num page_index),
           ("position", optVal position),
           ("fitOption", .str fit_option)]))

/-- server.py lines 490-499. -/
def get_pdf_export_presets (ctx : Ctx) : Outcome :=
  sendCommand ctx (createCommand ctx.nextId "getPdfExportPresets" (.obj []))

/-- server.py lines 501-519. -/
def export_pdf (ctx : Ctx) (file_path : String) (page_range : String := "ALL")
    (preset_name : String := "[High Quality Print]") : Outcome :=
  sendCommand ctx (createCommand ctx.nextId "exportPdf"
    (.obj [("filePath", .str file_path),
           ("pageRange", .str page_range),
           ("presetName", .str preset_name)]))

/-- One constructor per `@mcp.tool()` function of the InDesign server,
carrying exactly that function's arguments: the index over which claims
about "every operation function and every argument tuple" quantify. -/
inductive OpCall where
  | create_document (width height pages : Int) (facing_pages : Bool)
      (columns margins : Value)
  | get_text_frames (page_index : Int)
  | get_text_frame_info (text_frame_index page_index : Int)
  | open_document (file_path : String)
  | save_document
  | save_document_as (file_path : String)
  | close_document (save_options : String)
  | get_document_info
  | create_text_frame (page_index : Int) (geometric_bounds : Value)
  | insert_text (text_frame_index : Int) (text : String) (page_index : Int)
  | import_text_file (text_frame_index : Int) (file_path : String)
      (page_index insertion_point : Int)
  | remove_duplicate_frames
  | create_threaded_frames (start_page end_page : Int)
      (geometric_bounds : Value)
  | link_text_frames (source_frame_index target_frame_index
      source_page_index target_page_index : Int)
  | get_text_content (text_frame_index page_index : Int)
  | detect_text_overflow (text_frame_index page_index : Int)
  | get_paragraph_styles
  | get_character_styles
  | apply_paragraph_style (style_name : String) (text_frame_index : Int)
      (paragraph_range : String) (page_index : Int)
  | apply_character_style_to_text (style_name search_text : String)
      (text_frame_index occurrence page_index : Int)
  | create_paragraph_style (style_name : String) (properties : Value)
  | add_page (location : String) (reference_page : Option Int)
  | place_image (file_path : String) (page_index : Int)
      (position : Option Value) (fit_option : String)
  | get_pdf_export_presets
  | export_pdf (file_path page_range preset_name : String)

/-- The fixed wire name each operation dispatches under; depends only on
which operation is called, never on the arguments. -/
def opName : OpCall → String
  | .create_document .. => "createDocument"
  | .get_text_frames .. => "getTextFrames"
  | .get_text_frame_info .. => "getTextFrameInfo"
  | .open_document .. => "openDocument"
  | .save_document => "saveDocument"
  | .save_document_as .. => "saveDocumentAs"
  | .close_document .. => "closeDocument"
  | .get_document_info => "getDocumentInfo"
  | .create_text_frame .. => "createTextFrame"
  | .insert_text .. => "insertText"
  | .import_text_file .. => "importTextFile"
  | .remove_duplicate_frames => "removeDuplicateFrames"
  | .create_threaded_frames .. => "createThreadedFrames"
  | .link_text_frames .. => "linkTextFrames"
  | .get_text_content .. => "getTextContent"
  | .detect_text_overflow .. => "detectTextOverflow"
  | .get_paragraph_styles => "getParagraphStyles"
  | .get_character_styles => "getCharacterStyles"
  | .apply_paragraph_style .. => "applyParagraphStyle"
  | .apply_character_style_to_text .. => "applyCharacterStyleToText"
  | .create_paragraph_style .. => "createParagraphStyle"
  | .add_page .. => "addPage"
  | .place_image .. => "placeImage"
  | .get_pdf_export_presets => "getPdfExportPresets"
  | .export_pdf .. => "exportPdf"

/-- The payload mapping each operation builds from its named parameters
(the dict literal each tool function passes to `createCommand`). -/
def opParams : OpCall → Value
  | .create_document w h p f c m => createDocumentParams w h p f c m
  | .get_text_frames p => .obj [("pageIndex", .num p)]
  | .get_text_frame_info fi p =>
      .obj [("frameIndex", .num fi), ("pageIndex", .num p)]
  | .open_document fp => .obj [("filePath", .str fp)]
  | .save_document => .obj []
  | .save_document_as fp => .obj [("filePath", .str fp)]
  | .close_document so => .obj [("saveOptions", .str so)]
  | .get_document_info => .obj []
  | .create_text_frame p gb =>
      .obj [("pageIndex", .num p), ("geometricBounds", gb)]
  | .insert_text fi t p =>
      .obj [("frameIndex", .num fi), ("text", .str t),
            ("pageIndex", .num p)]
  | .import_text_file fi fp p ip =>
      .obj [("frameIndex", .num fi), ("filePath", .str fp),
            ("pageIndex", .num p), ("insertionPoint", .num ip)]
  | .remove_duplicate_frames => .obj []
  | .create_threaded_frames sp ep gb =>
      .obj [("startPage", .num sp), ("endPage", .num ep),
            ("geometricBounds", gb)]
  | .link_text_frames sf tf sp tp =>
      .obj [("sourceFrameIndex", .num sf), ("targetFrameIndex", .num tf),
            ("sourcePageIndex", .num sp), ("targetPageIndex", .num tp)]
  | .get_text_content fi p =>
      .obj [("frameIndex", .num fi), ("pageIndex", .num p)]
  | .detect_text_overflow fi p =>
      .obj [("frameIndex", .num fi), ("pageIndex", .num p)]
  | .get_paragraph_styles => .obj []
  | .get_character_styles => .obj []
  | .apply_paragraph_style sn fi pr p =>
      .obj [("styleName", .str sn), ("frameIndex", .num fi),
            ("paragraphRange", .str pr), ("pageIndex", .num p)]
  | .apply_character_style_to_text sn st fi oc p =>
      .obj [("styleName", .str sn), ("searchText", .str st),
            ("frameIndex", .num fi), ("occurrence", .num oc),
            ("pageIndex", .num p)]
  | .create_paragraph_style sn pr =>
      .obj [("styleName", .str sn), ("properties", pr)]
  | .add_page loc rp =>
      .obj [("location", .str loc), ("referencePage", optNum rp)]
  | .place_image fp p pos fo =>
      .obj [("filePath", .str fp), ("pageIndex", .num p),
            ("position", optVal pos), ("fitOption", .str fo)]
  | .get_pdf_export_presets => .obj []
  | .export_pdf fp pr pn =>
      .obj [("filePath", .str fp), ("pageRange", .str pr),
            ("presetName", .str pn)]

/-- Run the operation function an `OpCall` denotes, in context `ctx`. -/
def runOp (ctx : Ctx) : OpCall → Outcome
  | .create_document w h p f c m => create_document ctx w h p f c m
  | .get_text_frames p => get_text_frames ctx p
  | .get_text_frame_info fi p => get_text_frame_info ctx fi p
  | .open_document fp => open_document ctx fp
  | .save_document => save_document ctx
  | .save_document_as fp => save_document_as ctx fp
  | .close_document so => close_document ctx so
  | .get_document_info => get_document_info ctx
  | .create_text_frame p gb => create_text_frame ctx p gb
  | .insert_text fi t p => insert_text ctx fi t p
  | .import_text_file fi fp p ip => import_text_file ctx fi fp p ip
  | .remove_duplicate_frames => remove_duplicate_frames ctx
  | .create_threaded_frames sp ep gb => create_threaded_frames ctx sp ep gb
  | .link_text_frames sf tf sp tp => link_text_frames ctx sf tf sp tp
  | .get_text_content fi p => get_text_content ctx fi p
  | .detect_text_overflow fi p => detect_text_overflow ctx fi p
  | .get_paragraph_styles => get_paragraph_styles ctx
  | .get_character_styles => get_character_styles ctx
  | .apply_paragraph_style sn fi pr p => apply_paragraph_style ctx sn fi pr p
  | .apply_character_style_to_text sn st fi oc p =>
      apply_character_style_to_text ctx sn st fi oc p
  | .create_paragraph_style sn pr => create_paragraph_style ctx sn pr
  | .add_page loc rp => add_page ctx loc rp
  | .place_image fp p pos fo => place_image ctx fp p pos fo
  | .get_pdf_export_presets => get_pdf_export_presets ctx
  | .export_pdf fp pr pn => export_pdf ctx fp pr pn

end InDesign

/-- The observable interactions a piece of server code has with the
dispatch bridge: binding an endpoint configuration
(`socket_client.configure`), registering the application (`init`), and
dispatching a command (`createCommand` followed by `sendCommand`). -/
inductive Effect where
  | configure (app url : String) (timeout : Nat)
  | initApp (app : String)
  | dispatchCmd (cmd : Command)

/-- Whether an effect is a configuration (re)binding. -/
def Effect.isConfigure : Effect → Bool
  | .configure .. => true
  | _ => false

/-- The bridge effects the InDesign server module performs at import time,
in program order (server.py lines 38-48): one `socket_client.configure`
call with the module constants, then one `init`.  Nothing else at module
level touches the bridge. -/
def moduleInitEffects : List Effect :=
  [.configure InDesign.APPLICATION InDesign.PROXY_URL InDesign.PROXY_TIMEOUT,
   .initApp InDesign.APPLICATION]

/-- The bridge effects one tool invocation performs: every tool body
(server.py lines 50-519) is exactly one `createCommand` followed by one
`sendCommand` on the built command — no tool calls `configure` or
`init`. -/
def opEffects (nextId : Nat) (call : InDesign.OpCall) : List Effect :=
  [.dispatchCmd (createCommand nextId (InDesign.opName call)
      (InDesign.opParams call))]

/-- The bridge-effect trace of a whole server process: module
initialization runs first (Python executes the module body before the MCP
framework can invoke any tool), then the invoked tools in order, each with
the correlation id the builder hands it. -/
def processTrace (calls : List (Nat × InDesign.OpCall)) : List Effect :=
  moduleInitEffects ++ calls.flatMap fun c => opEffects c.1 c.2

/-! ## Page-count estimator
(`src/skills/adobe-indesign-assistant/scripts/estimate_pages.py`)

Python float arithmetic is idealised as exact `ℚ` arithmetic.  The two
builtins without a rational counterpart are passed in as parameters:
`pf` models `float(...)` parsing (returning `none` where Python raises
`ValueError`) and `sq` models `** 0.5`.  Each entry point also takes a
`bridge` parameter: the dispatch facade the process could reach; the
scripts never use it, which is exactly the frame property claimed of
them. -/

namespace EstimatePages

open AdobeMcp

/-- Split a character list at every character satisfying `p`, keeping
empty pieces — the semantics of Python's `str.split(sep)` for a one
character separator.  `acc` holds the current piece, reversed. -/
def splitByAux (p : Char → Bool) : List Char → List Char → List String
  | [], acc => [String.mk acc.reverse]
  | x :: xs, acc =>
      if p x then String.mk acc.reverse :: splitByAux p xs []
      else splitByAux p xs (x :: acc)

/-- Python `s.split(sep)` for a one-character separator: every occurrence
splits, empty pieces are kept (`"".split(',') == ['']`). -/
def splitBy (p : Char → Bool) (s : String) : List String :=
  splitByAux p s.data []

/-- Python `s.lower()` (ASCII case folding suffices for the inputs the
script documents). -/
def pyLower (s : String) : String :=
  String.mk (s.data.map Char.toLower)

/-- Python `s.strip()`: remove leading and trailing whitespace. -/
def pyStrip (s : String) : String :=
  String.mk
    (((s.data.dropWhile Char.isWhitespace).reverse.dropWhile
        Char.isWhitespace).reverse)

/-- Result record of the estimator (estimate_pages.py lines 19-27).
The source's `assumptions` field is a list of pre-rendered display
strings (Python f-strings with `:.1f` float formatting); it is pure
presentation with no behaviour depending on it, and is not modelled. -/
structure PageEstimate where
  estimated_pages : Int
  word_count : Nat
  character_count : Nat
  chars_per_page : Int
  confidence : String
  deriving DecidableEq

/-- Common page sizes in points (estimate_pages.py lines 31-38). -/
def PAGE_SIZES : List (String × ℚ × ℚ) :=
  [("letter", (612, 792)),
   ("legal", (612, 1008)),
   ("6x9", (432, 648)),
   ("5x8", (360, 576)),
   ("a4", (595, 842)),
   ("a5", (420, 595))]

/-- estimate_pages.py lines 41-72: named-size lookup on the lowercased,
trimmed string, falling back to `WxH` in inches (times 72); anything else
raises `ValueError`, modelled as `Except.error`. -/
def parse_page_size (pf : String → Option ℚ) (size_str : String) :
    Except String (ℚ × ℚ) :=
  let s := pyStrip (pyLower size_str)
  match PAGE_SIZES.lookup s with
  | some dims => .ok dims
  | none =>
      let failMsg := "Invalid page size: " ++ s ++
        ". Use named size (letter, 6x9, etc.) or WxH format (6x9, 8.5x11)"
      if s.data.contains 'x' then
        match splitBy (· = 'x') s with
        | [a, b] =>
            match pf a, pf b with
            | some w, some h => .ok (w * 72, h * 72)
            | _, _ => .error failMsg
        | _ => .error failMsg
      else .error failMsg

/-- Margin mapping in points (the dict `parse_margins` returns). -/
structure Margins where
  top : ℚ
  bottom : ℚ
  left : ℚ
  right : ℚ
  deriving DecidableEq

/-- Evaluate `f` on every element, failing if any evaluation fails — the
semantics of the list comprehension `[float(x) * 72 for x in ...]`, which
aborts on the first `ValueError`. -/
def traverseFloats (f : String → Option ℚ) : List String → Option (List ℚ)
  | [] => some []
  | x :: xs =>
      match f x with
      | none => none
      | some q => (traverseFloats f xs).map (q :: ·)

/-- estimate_pages.py lines 75-101: split on commas, parse every part as a
float and multiply by 72 (a failing part raises `ValueError` from
`float`), then assign by count — 1 part: all four sides; 2 parts:
top/bottom then left/right; 4 parts: top, bottom, left, right; any other
count raises `ValueError`. -/
def parse_margins (pf : String → Option ℚ) (margin_str : String) :
    Except String Margins :=
  match traverseFloats (fun x => (pf x).map (· * 72))
      (splitBy (· = ',') margin_str) with
  | none => .error "could not convert string to float"
  | some parts =>
      match parts with
      | [m] => .ok { top := m, bottom := m, left := m, right := m }
      | [tb, lr] => .ok { top := tb, bottom := tb, left := lr, right := lr }
      | [t, b, l, r] => .ok { top := t, bottom := b, left := l, right := r }
      | _ => .error ("Invalid margin format. Use: single value, " ++
          "two values (TB,LR), or four values (T,B,L,R)")

/-- estimate_pages.py lines 104-118. -/
def calculate_text_area (page_size : ℚ × ℚ) (margins : Margins) : ℚ :=
  let text_width := page_size.1 - margins.left - margins.right
  let text_height := page_size.2 - margins.top - margins.bottom
  text_width * text_height

/-- Python `int(...)`: truncation toward zero. -/
def ratTrunc (q : ℚ) : Int :=
  if 0 ≤ q then ⌊q⌋ else ⌈q⌉

/-- estimate_pages.py lines 121-152: characters per line from the
approximate text width `sq text_area` (the float `** 0.5`), lines per page
from the leading (defaulting to 120% of the font size), truncated to an
integer. -/
def estimate_chars_per_page (sq : ℚ → ℚ) (text_area : ℚ) (font_size : Int)
    (leading : Option ℚ := none) : Int :=
  let l : ℚ := match leading with
    | none => (font_size : ℚ) * (6 / 5)
    | some x => x
  let char_width : ℚ := (font_size : ℚ) * (1 / 2)
  let text_width := sq text_area
  let chars_per_line := text_width / char_width
  let text_height := text_area / text_width
  let lines_per_page := text_height / l
  ratTrunc (chars_per_line * lines_per_page)

/-- estimate_pages.py lines 155-177, with the already-decoded file content
as a string: words are maximal whitespace-free runs, the character count
is the content's length. -/
def count_text (content : String) : Nat × Nat :=
  let words := (splitBy Char.isWhitespace content).filter (fun w => w ≠ "")
  (words.length, content.length)

/-- estimate_pages.py lines 180-241.  `bridge` is the dispatch facade the
process could reach; the script never touches it.  Numeric rendering
inside the assumption strings uses `toString` in place of Python's
format specifiers (presentation only).  The integer division on line 214
is Python floor division (`Int.fdiv`) and is unguarded against
`chars_per_page = 0`, as in the source (where that case raises
`ZeroDivisionError`; here `fdiv` is total). -/
def estimate_pages (bridge : Command → Outcome)
    (pf : String → Option ℚ) (sq : ℚ → ℚ) (content : String)
    (page_size : String := "6x9") (font_size : Int := 12)
    (margins : String := "0.75,0.75,0.75,0.75")
    (leading : Option ℚ := none) : Except String PageEstimate :=
  match parse_page_size pf page_size with
  | .error e => .error e
  | .ok page_dims =>
      match parse_margins pf margins with
      | .error e => .error e
      | .ok margin_dict =>
          let (word_count, char_count) := count_text content
          let text_area := calculate_text_area page_dims margin_dict
          let chars_per_page :=
            estimate_chars_per_page sq text_area font_size leading
          let estimated_pages : Int :=
            max 1 (((char_count : Int) + chars_per_page - 1).fdiv
              chars_per_page)
          -- Line 228 tests the raw `page_size` argument against the
          -- table keys.
          let confidence :=
            if font_size < 10 || font_size > 14 then "medium"
            else if (PAGE_SIZES.lookup page_size).isNone then "medium"
            else "high"
          .ok { estimated_pages := estimated_pages,
                word_count := word_count,
                character_count := char_count,
                chars_per_page := chars_per_page,
                confidence := confidence }

end EstimatePages

/-! ## PDF export pre-flight checker
(`src/skills/adobe-indesign-assistant/scripts/preflight_pdf.py`) -/

namespace PreflightPdf

open AdobeMcp

/-- Result record of one pre-flight check (preflight_pdf.py
lines 20-26). -/
structure PreflightResult where
  passed : Bool
  warnings : List String
  errors : List String
  recommendations : List String

/-- One entry of the preset database. -/
structure PresetInfo where
  color_space : String
  min_resolution : Nat
  output_types : List String
  description : String

/-- Preset database with recommended settings (preflight_pdf.py
lines 30-55). -/
def PRESET_INFO : List (String × PresetInfo) :=
  [("[High Quality Print]",
    { color_space := "CMYK", min_resolution := 300,
      output_types := ["print"],
      description := "CMYK, 300dpi, for commercial printing" }),
   ("[Press Quality]",
    { color_space := "CMYK", min_resolution := 300,
      output_types := ["print", "commercial"],
      description := "CMYK, 300dpi, PDF/X-1a compliant" }),
   ("[Smallest File Size]",
    { color_space := "RGB", min_resolution := 72,
      output_types := ["digital", "web", "email"],
      description := "RGB, 72dpi, for digital distribution" }),
   ("[PDF/X-4:2008]",
    { color_space := "CMYK", min_resolution := 300,
      output_types := ["print", "commercial", "pod"],
      description := "Modern press standard, CMYK, 300dpi" })]

/-- preflight_pdf.py lines 58-96.  Without MCP tools it warns and passes;
with them the verification body is a commented-out placeholder, so no
error can arise and the check passes.  `bridge` is the dispatch facade the
process could reach; the script never touches it. -/
def check_preset_exists (bridge : Command → Outcome) (preset_name : String)
    (mcp_available : Bool := false) : PreflightResult :=
  if !mcp_available then
    { passed := true,
      warnings := ["MCP tools not available - cannot verify preset exists"],
      errors := [], recommendations := [] }
  else
    { passed := true, warnings := [], errors := [], recommendations := [] }

/-- preflight_pdf.py lines 99-151. -/
def check_preset_match (preset_name output_type : String) :
    PreflightResult :=
  match PRESET_INFO.lookup preset_name with
  | none =>
      { passed := true,
        warnings := ["Preset '" ++ preset_name ++
            "' not in known presets database",
          "Unable to validate appropriateness for output type"],
        errors := [], recommendations := [] }
  | some preset_info =>
      let recommended_types := preset_info.output_types
      if !recommended_types.contains output_type then
        let errors := ["Preset '" ++ preset_name ++
            "' not recommended for '" ++ output_type ++ "' output",
          "This preset is for: " ++
            String.intercalate ", " recommended_types]
        let better_presets := (PRESET_INFO.filter
          fun p => p.2.output_types.contains output_type).map (·.1)
        let recommendations :=
          if better_presets.isEmpty then []
          else ["Consider using: " ++
            String.intercalate ", " better_presets]
        { passed := errors.isEmpty, warnings := [], errors := errors,
          recommendations := recommendations }
      else
        { passed := true, warnings := [], errors := [],
          recommendations := [] }

/-- preflight_pdf.py lines 154-204. -/
def check_color_space (preset_name output_type : String) :
    PreflightResult :=
  match PRESET_INFO.lookup preset_name with
  | none =>
      { passed := true,
        warnings := ["Cannot validate color space - preset unknown"],
        errors := [], recommendations := [] }
  | some preset_info =>
      let preset_color := preset_info.color_space
      let (errors, recommendations) :=
        if ["print", "commercial", "pod"].contains output_type &&
            preset_color ≠ "CMYK" then
          (["Color space mismatch: Preset uses " ++ preset_color ++
              ", but " ++ output_type ++ " requires CMYK"],
           ["Use a preset with CMYK color space for print output"])
        else ([], [])
      let warnings :=
        if ["digital", "web", "email"].contains output_type &&
            preset_color ≠ "RGB" then
          ["Color space note: Preset uses " ++ preset_color ++
            ", but RGB is typical for " ++ output_type]
        else []
      { passed := errors.isEmpty, warnings := warnings, errors := errors,
        recommendations := recommendations }

/-- preflight_pdf.py lines 207-256. -/
def check_resolution (preset_name output_type : String) :
    PreflightResult :=
  match PRESET_INFO.lookup preset_name with
  | none =>
      { passed := true,
        warnings := ["Cannot validate resolution - preset unknown"],
        errors := [], recommendations := [] }
  | some preset_info =>
      let preset_resolution := preset_info.min_resolution
      let resStr := toString preset_resolution
      let (errors, recommendations) :=
        if ["print", "commercial", "pod"].contains output_type &&
            preset_resolution < 300 then
          (["Resolution too low: Preset is " ++ resStr ++ "dpi, but " ++
              output_type ++ " requires 300dpi minimum"],
           ["Use [High Quality Print] or [Press Quality]"])
        else ([], [])
      let warnings :=
        if ["digital", "web", "email"].contains output_type &&
            preset_resolution > 150 then
          ["Resolution may be higher than needed: " ++ resStr ++
             "dpi for " ++ output_type ++ " (72-150dpi typical)",
           "This will result in larger file size"]
        else []
      { passed := errors.isEmpty, warnings := warnings, errors := errors,
        recommendations := recommendations }

/-- The `choices` list argparse accepts for `--output-type`
(preflight_pdf.py line 271). -/
def acceptedOutputTypes : List String :=
  ["print", "digital", "web", "email", "commercial", "pod"]

/-- preflight_pdf.py lines 259-362: the exit-code computation of `main`
after argument parsing.  `mcp_available` is fixed to `False` (line 285);
the four checks run in order; `all_passed` drops on any failed check and
`has_warnings` rises on any non-empty warning list; the exit code is 0
only when everything passed warning-free, 10 on warnings only, 11
otherwise.  `bridge` is the dispatch facade the process could reach; the
script never touches it. -/
def preflightMain (bridge : Command → Outcome)
    (preset output_type : String) : Nat :=
  let mcp_available := false
  let r1 := check_preset_exists bridge preset mcp_available
  let r2 := check_preset_match preset output_type
  let r3 := check_color_space preset output_type
  let r4 := check_resolution preset output_type
  let all_passed := r1.passed && r2.passed && r3.passed && r4.passed
  let has_warnings := !r1.warnings.isEmpty || !r2.warnings.isEmpty ||
    !r3.warnings.isEmpty || !r4.warnings.isEmpty
  if all_passed && !has_warnings then 0
  else if all_passed && has_warnings then 10
  else 11

end PreflightPdf

/-! ## Document validator
(`src/skills/adobe-indesign-assistant/scripts/validate_document.py`) -/

namespace ValidateDocument

open AdobeMcp

/-- Result record of one validation check (validate_document.py
lines 20-26). -/
structure ValidationResult where
  passed : Bool
  warnings : List String
  errors : List String
  details : Value

/-- validate_document.py lines 29-74. -/
def check_overflow (mcp_available : Bool := false) : ValidationResult :=
  if !mcp_available then
    { passed := true,
      warnings := ["MCP tools not available - cannot check overflow"],
      errors := [],
      details := .obj [("mcp_available", .bool false)] }
  else
    { passed := true, warnings := [], errors := [],
      details := .obj [("pages_checked", .num 0),
        ("frames_checked", .num 0), ("overflow_found", .num 0)] }

/-- validate_document.py lines 77-109. -/
def check_fonts (mcp_available : Bool := false) : ValidationResult :=
  if !mcp_available then
    { passed := true,
      warnings := ["MCP tools not available - cannot check fonts"],
      errors := [],
      details := .obj [("mcp_available", .bool false)] }
  else
    { passed := true, warnings := [], errors := [],
      details := .obj [("fonts_used", .num 0),
        ("fonts_missing", .num 0), ("fonts_substituted", .num 0)] }

/-- validate_document.py lines 112-147. -/
def check_styles (mcp_available : Bool := false) : ValidationResult :=
  if !mcp_available then
    { passed := true,
      warnings := ["MCP tools not available - cannot check styles"],
      errors := [],
      details := .obj [("mcp_available", .bool false)] }
  else
    { passed := true, warnings := [], errors := [],
      details := .obj [("paragraph_styles", .num 0),
        ("character_styles", .num 0), ("undefined_styles", .num 0)] }

/-- validate_document.py lines 150-190. -/
def check_bounds (mcp_available : Bool := false) : ValidationResult :=
  if !mcp_available then
    { passed := true,
      warnings := ["MCP tools not available - cannot check bounds"],
      errors := [],
      details := .obj [("mcp_available", .bool false)] }
  else
    { passed := true, warnings := [], errors := [],
      details := .obj [("frames_checked", .num 0),
        ("frames_out_of_bounds", .num 0)] }

/-- validate_document.py lines 193-305: the exit-code computation of
`main` over the parsed flags.  With no flag given, `--all` is implied
(lines 226-227); `mcp_available` is fixed to `False` (line 231); each
selected check contributes to `all_passed`/`has_warnings`; exit code as
in the pre-flight script.  `bridge` is the dispatch facade the process
could reach; the script never touches it. -/
def validateMain (bridge : Command → Outcome)
    (flag_overflow flag_fonts flag_styles flag_bounds flag_all : Bool) :
    Nat :=
  let eff_all :=
    if !(flag_overflow || flag_fonts || flag_styles || flag_bounds ||
        flag_all) then true
    else flag_all
  let mcp_available := false
  let results : List ValidationResult :=
    (if eff_all || flag_overflow then [check_overflow mcp_available]
     else []) ++
    (if eff_all || flag_fonts then [check_fonts mcp_available] else []) ++
    (if eff_all || flag_styles then [check_styles mcp_available]
     else []) ++
    (if eff_all || flag_bounds then [check_bounds mcp_available] else [])
  let all_passed := results.all (·.passed)
  let has_warnings := results.any (fun r => !r.warnings.isEmpty)
  if all_passed && !has_warnings then 0
  else if all_passed && has_warnings then 10
  else 11

end ValidateDocument

/-! ## Concrete inputs used by counterexamples and witnesses -/

/-- The parameter mapping claim C1 asserts for the dispatched command:
`{width: 612, height: 792, pages: 1}` — written from the claim's words, to
be compared with what `create_document` actually builds. -/
def specC1Params : Value :=
  .obj [("width", .num 612), ("height", .num 792), ("pages", .num 1)]

/-- A proxy that replies once, immediately, with
`{status: ok, result: {pageCount: 1}}` correlated to id 0. -/
def ctxC1 : Ctx :=
  { cfg := InDesign.serverConfig,
    env := .replies [(1,
      { id := 0, status := .ok,
        result := some (.obj [("pageCount", .num 1)]), error := none })],
    nextId := 0 }

/-- A trivial dispatch facade used to instantiate `bridge` parameters. -/
def trivialBridge : Command → Outcome :=
  fun _ => { success := true, data := none, error := none }

/-- A response whose correlation id (3) matches no sent command in the
timeout witness. -/
def respC4 : Response :=
  { id := 3, status := .ok, result := none, error := none }

/-- A well-formed `status=error` reply carrying an application error. -/
def respC5 : Response :=
  { id := 1, status := .error, result := none,
    error := some { kind := "DocumentNotOpen",
                    message := "No document is open" } }

/-- A concrete stand-in for Python's `float()` on the strings the
witnesses use. -/
def pfTest : String → Option ℚ :=
  fun x =>
    if x = "1" then some 1
    else if x = "2" then some 2
    else if x = "3" then some 3
    else if x = "4" then some 4
    else if x = "0.75" then some (3 / 4)
    else none

/-- A concrete stand-in for float `** 0.5` at the one text area the C9
witness uses (any value works: the claim's conclusion does not depend on
the approximate square root). -/
def sqTest : ℚ → ℚ := fun _ => 550

/-- The estimate produced for a 2-character file on a letter page with
1-inch margins, 12pt font and default leading: the usable area is
468 x 648 = 303264 square points, so chars-per-page is
⌊303264 / (6 * 14.4)⌋ = 3510 (the approximate square root cancels
exactly), and 2 characters need 1 page. -/
def estC9 : EstimatePages.PageEstimate :=
  { estimated_pages := 1, word_count := 1, character_count := 2,
    chars_per_page := 3510, confidence := "high" }

end AdobeMcp

/-! ## Claims -/

namespace AdobeMcp

/-- **C2.** Every operation function exposed by the InDesign server, on
every argument tuple, factors as: build the fixed-name command from the
payload mapping of its named parameters via `createCommand`, dispatch it
via `sendCommand`, and return that value unchanged — no other control
logic and no transformation of the dispatch result. -/
theorem claim_C2_ops_factor_through_dispatch :
    ∀ (ctx : Ctx) (call : InDesign.OpCall),
      InDesign.runOp ctx call =
        sendCommand ctx (createCommand ctx.nextId (InDesign.opName call)
          (InDesign.opParams call)) := by
  intro ctx call
  cases call <;> rfl

/-- **C1 (counterexample).** At width 612, height 792, pages 1 (and the
default remaining arguments), the parameter mapping `create_document`
builds is not `{width: 612, height: 792, pages: 1}` as the claim states:
the actual mapping has no `width` key at all. -/
theorem claim_C1_counterexample :
    InDesign.createDocumentParams 612 792 1 false InDesign.columnsDefault
      InDesign.marginsDefault ≠ specC1Params := by
  intro h
  have h1 : (lookupKey (InDesign.createDocumentParams 612 792 1 false
      InDesign.columnsDefault InDesign.marginsDefault) "width").isSome =
        false := by decide
  have h2 : (lookupKey specC1Params "width").isSome = true := by decide
  rw [h, h2] at h1
  exact Bool.noConfusion h1

/-- **C1 (amended).** With width 612, height 792, pages 1 and the default
remaining arguments, `create_document` dispatches a command named
`createDocument` whose parameters mapping is `{intent: "WEB_INTENT",
pageWidth: 612, pageHeight: 792, margins: {top:36, bottom:36, left:36,
right:36}, columns: {count:1, gutter:12}, pagesPerDocument: 1,
facingPages: false}`, and when the proxy replies with status ok and
result `{pageCount: 1}` the returned Outcome is
`{success: true, data: {pageCount: 1}}`. -/
theorem claim_C1_amended :
    InDesign.create_document ctxC1 612 792 1 =
      sendCommand ctxC1 (createCommand 0 "createDocument"
        (.obj [("intent", .str "WEB_INTENT"),
               ("pageWidth", .num 612),
               ("pageHeight", .num 792),
               ("margins", .obj [("top", .num 36), ("bottom", .num 36),
                  ("left", .num 36), ("right", .num 36)]),
               ("columns", .obj [("count", .num 1), ("gutter", .num 12)]),
               ("pagesPerDocument", .num 1),
               ("facingPages", .bool false)]))
    ∧ InDesign.create_document ctxC1 612 792 1 =
        { success := true, data := some (.obj [("pageCount", .num 1)]),
          error := none } :=
  ⟨rfl, rfl⟩

/-- No operation invocation ever emits a configuration effect: each tool
body touches the bridge only through one dispatched command. -/
theorem opEffects_no_configure :
    ∀ (calls : List (Nat × InDesign.OpCall)),
      (calls.flatMap fun c => opEffects c.1 c.2).filter
        Effect.isConfigure = [] := by
  intro calls
  induction calls with
  | nil => rfl
  | cons c cs ih =>
      simpa [opEffects, Effect.isConfigure] using ih

/-- **C6.** In any run of the InDesign server process — module
initialization followed by any sequence of operation invocations — the
endpoint configuration is bound exactly once, with application
`"indesign"`, address `http://localhost:3001` and a 20-second timeout: it
is the very first bridge effect of the process (so it precedes every
dispatch), it is the only configure effect in the whole trace, and no
operation invocation produces a configure effect. -/
theorem claim_C6_configured_once :
    ∀ (calls : List (Nat × InDesign.OpCall)),
      (processTrace calls).head? =
        some (.configure "indesign" "http://localhost:3001" 20)
      ∧ (processTrace calls).filter Effect.isConfigure =
          [.configure "indesign" "http://localhost:3001" 20]
      ∧ ∀ (i : Nat) (call : InDesign.OpCall),
          (opEffects i call).filter Effect.isConfigure = [] := by
  intro calls
  refine ⟨rfl, ?_, fun i call => rfl⟩
  rw [processTrace, List.filter_append, opEffects_no_configure,
    List.append_nil]
  rfl

/-- **C7.** None of the three auxiliary CLI scripts invokes the dispatch
bridge on any execution path: the page-count estimator, the pre-flight
checker's preset check and exit-code computation, and the document
validator's exit-code computation are all invariant in the dispatch
facade available to the process — their results are computed purely from
their arguments, the file content, and their built-in constant tables. -/
theorem claim_C7_scripts_no_dispatch :
    ∀ (b₁ b₂ : Command → Outcome) (pf : String → Option ℚ) (sq : ℚ → ℚ)
      (content ps ms preset otype : String) (fs : Int) (ld : Option ℚ)
      (mcp co cf cs cb al : Bool),
      EstimatePages.estimate_pages b₁ pf sq content ps fs ms ld =
        EstimatePages.estimate_pages b₂ pf sq content ps fs ms ld
      ∧ PreflightPdf.check_preset_exists b₁ preset mcp =
          PreflightPdf.check_preset_exists b₂ preset mcp
      ∧ PreflightPdf.preflightMain b₁ preset otype =
          PreflightPdf.preflightMain b₂ preset otype
      ∧ ValidateDocument.validateMain b₁ co cf cs cb al =
          ValidateDocument.validateMain b₂ co cf cs cb al := by
  intros
  exact ⟨rfl, rfl, rfl, rfl⟩

/-- **C3.** For every command name, parameter mapping and transport
outcome (timeout, unreachable endpoint, malformed reply, or a
`status=error` reply), the dispatch facade `sendCommand` returns an
`Outcome` value: on success the error field is empty, and on every
failure path the failure is represented as data — `success = false` with
a populated error field.  Nothing escapes as an exception (the facade is
a total function into `Outcome`). -/
theorem claim_C3_sendCommand_total :
    ∀ (ctx : Ctx) (name : String) (params : Value),
      (sendCommand ctx (createCommand ctx.nextId name params)).success =
          true
        ∧ (sendCommand ctx
            (createCommand ctx.nextId name params)).error = none
      ∨ (sendCommand ctx (createCommand ctx.nextId name params)).success =
          false
        ∧ ((sendCommand ctx
            (createCommand ctx.nextId name params)).error).isSome =
              true := by
  intro ctx name params
  cases h : send_message_blocking ctx.cfg ctx.env
      (createCommand ctx.nextId name params) with
  | error e => right; simp [sendCommand, h]
  | ok r =>
      cases hs : r.status with
      | ok => left; simp [sendCommand, h, hs]
      | error =>
          cases he : r.error with
          | none => right; simp [sendCommand, h, hs, he]
          | some e => right; simp [sendCommand, h, hs, he]

/-- Scanning a reply stream that contains no matching correlation id
produces a timeout. -/
theorem scanReplies_no_match :
    ∀ (cid : Nat) (l : List (Nat × Response)),
      (∀ a ∈ l, a.2.id ≠ cid) → scanReplies cid l = .error .timeout := by
  intro cid l h
  induction l with
  | nil => rfl
  | cons a rest ih =>
      have ha := h a (List.mem_cons_self a rest)
      simp only [scanReplies, if_neg ha]
      exact ih fun b hb => h b (List.mem_cons_of_mem a hb)

/-- **C4.** For every sent command, if no response whose correlation id
matches the command arrives within the configured timeout, the transport
client's blocking send returns to its caller with the `Timeout`
classification — it does not remain pending (the send is a total function
whose value here is `Except.error .timeout`). -/
theorem claim_C4_timeout_returns :
    ∀ (cfg : EndpointConfig) (arrivals : List (Nat × Response))
      (cmd : Command),
      (∀ a ∈ arrivals, a.1 ≤ cfg.timeout → a.2.id ≠ cmd.id) →
      send_message_blocking cfg (.replies arrivals) cmd =
        .error .timeout := by
  intro cfg arrivals cmd h
  unfold send_message_blocking
  apply scanReplies_no_match
  intro a ha
  have := List.mem_filter.mp ha
  exact h a this.1 (by simpa using this.2)

/-- Witness for C4: a proxy that answers within the window but with a
non-matching correlation id (3 instead of 7) yields a timeout. -/
theorem claim_C4_witness :
    (∀ a ∈ [((5 : Nat), respC4)],
      a.1 ≤ (InDesign.serverConfig).timeout → a.2.id ≠ 7)
    ∧ send_message_blocking InDesign.serverConfig
        (.replies [(5, respC4)]) (createCommand 7 "ping" (.obj [])) =
          .error .timeout :=
  ⟨by decide, claim_C4_timeout_returns _ _ _ (by decide)⟩

/-- **C5.** For every well-formed proxy reply with `status = error` that
reaches the client within the timeout, `sendCommand` returns an Outcome
with `success = false` whose error kind is `applicationError k` for the
proxy-supplied kind `k` — a classification distinct by construction from
the `timeout` and `transportUnavailable` classifications of
transport-layer failures. -/
theorem claim_C5_application_error :
    ∀ (cfg : EndpointConfig) (nextId : Nat) (name : String)
      (params : Value) (t : Nat) (r : Response) (k m : String),
      r.id = nextId → r.status = .error →
      r.error = some { kind := k, message := m } → t ≤ cfg.timeout →
      (sendCommand (Ctx.mk cfg (.replies [(t, r)]) nextId)
          (createCommand nextId name params)).success = false
      ∧ (sendCommand (Ctx.mk cfg (.replies [(t, r)]) nextId)
          (createCommand nextId name params)).error =
            some (.applicationError k, m)
      ∧ (∀ s, ErrorKind.applicationError s ≠ .timeout
          ∧ ErrorKind.applicationError s ≠ .transportUnavailable) := by
  intro cfg nextId name params t r k m hid hs he ht
  have hsend : send_message_blocking cfg (.replies [(t, r)])
      (createCommand nextId name params) = .ok r := by
    simp [send_message_blocking, List.filter_cons, ht, scanReplies, hid,
      createCommand]
  refine ⟨?_, ?_, fun s =>
    ⟨fun h => ErrorKind.noConfusion h, fun h => ErrorKind.noConfusion h⟩⟩
  · simp [sendCommand, hsend, hs, he]
  · simp [sendCommand, hsend, hs, he]

/-- Witness for C5: a `DocumentNotOpen` application error arriving after
2 seconds against the 20-second InDesign configuration. -/
theorem claim_C5_witness :
    respC5.id = 1 ∧ respC5.status = .error
    ∧ respC5.error = some (AppErr.mk "DocumentNotOpen"
        "No document is open")
    ∧ (2 : Nat) ≤ (InDesign.serverConfig).timeout
    ∧ (sendCommand (Ctx.mk InDesign.serverConfig
          (.replies [(2, respC5)]) 1)
        (createCommand 1 "saveDocument" (.obj []))).error =
          some (.applicationError "DocumentNotOpen",
            "No document is open") :=
  ⟨rfl, rfl, rfl, by decide,
    (claim_C5_application_error InDesign.serverConfig 1 "saveDocument"
      (.obj []) 2 respC5 "DocumentNotOpen" "No document is open"
      rfl rfl rfl (by decide)).2.1⟩

/-- **C8.** For every preset name and every output type accepted by the
argument parser, the pre-flight checker's `main` exits with code 10 or 11
and never 0: `mcp_available` is hard-coded to `False`, so
`check_preset_exists` always emits its warning, forcing `has_warnings` on
every run. -/
theorem claim_C8_preflight_never_passes_clean :
    ∀ (bridge : Command → Outcome) (preset otype : String),
      otype ∈ PreflightPdf.acceptedOutputTypes →
      (PreflightPdf.preflightMain bridge preset otype = 10
        ∨ PreflightPdf.preflightMain bridge preset otype = 11)
      ∧ PreflightPdf.preflightMain bridge preset otype ≠ 0 := by
  intro bridge preset otype _
  have h1 : PreflightPdf.check_preset_exists bridge preset false =
      { passed := true,
        warnings := ["MCP tools not available - cannot verify preset exists"],
        errors := [], recommendations := [] } := rfl
  have key : PreflightPdf.preflightMain bridge preset otype = 10
      ∨ PreflightPdf.preflightMain bridge preset otype = 11 := by
    simp only [PreflightPdf.preflightMain, h1]
    cases h2 : (PreflightPdf.check_preset_match preset otype).passed <;>
      cases h3 : (PreflightPdf.check_color_space preset otype).passed <;>
        cases h4 : (PreflightPdf.check_resolution preset otype).passed <;>
          simp [h2, h3, h4]
  exact ⟨key, by rcases key with h | h <;> omega⟩

/-- Witness for C8: the documented default preset against `print` output
(an accepted output type) exits 10. -/
theorem claim_C8_witness :
    "print" ∈ PreflightPdf.acceptedOutputTypes
    ∧ (PreflightPdf.preflightMain trivialBridge "[High Quality Print]"
          "print" = 10
        ∨ PreflightPdf.preflightMain trivialBridge "[High Quality Print]"
          "print" = 11)
    ∧ PreflightPdf.preflightMain trivialBridge "[High Quality Print]"
        "print" ≠ 0 :=
  ⟨by decide,
    claim_C8_preflight_never_passes_clean trivialBridge
      "[High Quality Print]" "print" (by decide)⟩

/-- The float traversal succeeds exactly when every part parses. -/
theorem traverseFloats_isSome_iff (f : String → Option ℚ) :
    ∀ (l : List String),
      (EstimatePages.traverseFloats f l).isSome ↔
        ∀ x ∈ l, (f x).isSome := by
  intro l
  induction l with
  | nil => simp [EstimatePages.traverseFloats]
  | cons a rest ih =>
      cases hfa : f a with
      | none => simp [EstimatePages.traverseFloats, hfa]
      | some q => simp [EstimatePages.traverseFloats, hfa, ih]

/-- The float traversal preserves the number of parts. -/
theorem traverseFloats_length (f : String → Option ℚ) :
    ∀ (l : List String) (parts : List ℚ),
      EstimatePages.traverseFloats f l = some parts →
        parts.length = l.length := by
  intro l
  induction l with
  | nil =>
      intro parts h
      simp [EstimatePages.traverseFloats] at h
      simp [← h]
  | cons a rest ih =>
      intro parts h
      cases hfa : f a with
      | none => simp [EstimatePages.traverseFloats, hfa] at h
      | some q =>
          simp [EstimatePages.traverseFloats, hfa] at h
          obtain ⟨xs, hxs, hparts⟩ := h
          simp [← hparts, ih xs hxs]

/-- **C10.** `parse_margins` returns a margin mapping exactly when every
comma-separated part of its input parses as a float and the number of
parts is 1, 2 or 4, and fails with `ValueError` otherwise; in the
four-value case the parts are assigned in order top, bottom, left, right,
each multiplied by 72. -/
theorem claim_C10_parse_margins :
    ∀ (pf : String → Option ℚ) (s : String),
      ((∃ m, EstimatePages.parse_margins pf s = .ok m) ↔
        ((∀ x ∈ EstimatePages.splitBy (· = ',') s, (pf x).isSome)
          ∧ ((EstimatePages.splitBy (· = ',') s).length = 1
            ∨ (EstimatePages.splitBy (· = ',') s).length = 2
            ∨ (EstimatePages.splitBy (· = ',') s).length = 4)))
      ∧ (∀ (a b c d : String) (qa qb qc qd : ℚ),
          EstimatePages.splitBy (· = ',') s = [a, b, c, d] →
          pf a = some qa → pf b = some qb → pf c = some qc →
          pf d = some qd →
          EstimatePages.parse_margins pf s =
            .ok (EstimatePages.Margins.mk (qa * 72) (qb * 72) (qc * 72)
              (qd * 72))) := by
  intro pf s
  constructor
  · constructor
    · rintro ⟨m, hm⟩
      unfold EstimatePages.parse_margins at hm
      cases htr : EstimatePages.traverseFloats
          (fun x => (pf x).map (· * 72))
          (EstimatePages.splitBy (· = ',') s) with
      | none => rw [htr] at hm; cases hm
      | some parts =>
          rw [htr] at hm
          have hlen := traverseFloats_length _ _ _ htr
          have hall : ∀ x ∈ EstimatePages.splitBy (· = ',') s,
              (pf x).isSome := by
            have hsome := (traverseFloats_isSome_iff
              (fun x => (pf x).map (· * 72))
              (EstimatePages.splitBy (· = ',') s)).mp (by rw [htr]; rfl)
            intro x hx
            have := hsome x hx
            cases hpx : pf x with
            | none => rw [hpx] at this; cases this
            | some q => rfl
          refine ⟨hall, ?_⟩
          rcases parts with _ | ⟨p1, _ | ⟨p2, _ | ⟨p3, _ | ⟨p4, rest⟩⟩⟩⟩
          · cases hm
          · left; rw [← hlen]; rfl
          · right; left; rw [← hlen]; rfl
          · cases hm
          · rcases rest with _ | ⟨p5, rest'⟩
            · right; right; rw [← hlen]; rfl
            · cases hm
    · rintro ⟨hall, hlen⟩
      have hsome : (EstimatePages.traverseFloats
          (fun x => (pf x).map (· * 72))
          (EstimatePages.splitBy (· = ',') s)).isSome := by
        apply (traverseFloats_isSome_iff _ _).mpr
        intro x hx
        cases hpx : pf x with
        | none =>
            have := hall x hx
            rw [hpx] at this; cases this
        | some q => simp [hpx]
      obtain ⟨parts, hparts⟩ := Option.isSome_iff_exists.mp hsome
      have hplen := traverseFloats_length _ _ _ hparts
      unfold EstimatePages.parse_margins
      rw [hparts]
      rcases parts with _ | ⟨p1, _ | ⟨p2, _ | ⟨p3, _ | ⟨p4, rest⟩⟩⟩⟩
      · exfalso; simp only [List.length_nil] at hplen; omega
      · exact ⟨_, rfl⟩
      · exact ⟨_, rfl⟩
      · exfalso
        simp only [List.length_cons, List.length_nil] at hplen
        omega
      · rcases rest with _ | ⟨p5, rest'⟩
        · exact ⟨_, rfl⟩
        · exfalso
          simp only [List.length_cons] at hplen
          omega
  · intro a b c d qa qb qc qd hsplit ha hb hc hd
    unfold EstimatePages.parse_margins
    rw [hsplit]
    simp [EstimatePages.traverseFloats, ha, hb, hc, hd]

/-- Witness for C10: `"1,2,3,4"` parses with top 72, bottom 144, left
216, right 288 points. -/
theorem claim_C10_witness :
    EstimatePages.splitBy (· = ',') "1,2,3,4" = ["1", "2", "3", "4"]
    ∧ pfTest "1" = some 1 ∧ pfTest "2" = some 2 ∧ pfTest "3" = some 3
    ∧ pfTest "4" = some 4
    ∧ EstimatePages.parse_margins pfTest "1,2,3,4" =
        .ok (EstimatePages.Margins.mk ((1 : ℚ) * 72) ((2 : ℚ) * 72)
          ((3 : ℚ) * 72) ((4 : ℚ) * 72)) :=
  ⟨by decide, by decide, by decide, by decide, by decide,
    (claim_C10_parse_margins pfTest "1,2,3,4").2 "1" "2" "3" "4" 1 2 3 4
      (by decide) (by decide) (by decide) (by decide) (by decide)⟩

/-- Python's `(n + c - 1) // c` on a natural numerator is exactly the
rational ceiling `⌈n / c⌉` whenever `1 ≤ c`. -/
theorem fdiv_add_pred_eq_ceil (n : ℕ) (c : ℤ) (hc : 1 ≤ c) :
    ((n : ℤ) + c - 1).fdiv c = ⌈(n : ℚ) / (c : ℚ)⌉ := by
  have hc0 : (0 : ℤ) < c := hc
  have hcQ : (0 : ℚ) < (c : ℚ) := by exact_mod_cast hc0
  rw [Int.fdiv_eq_ediv _ (le_of_lt hc0)]
  symm
  rw [Int.ceil_eq_iff]
  set k : ℤ := ((n : ℤ) + c - 1) / c with hk
  have h1 := Int.ediv_add_emod ((n : ℤ) + c - 1) c
  have h2 := Int.emod_nonneg ((n : ℤ) + c - 1) (ne_of_gt hc0)
  have h3 := Int.emod_lt_of_pos ((n : ℤ) + c - 1) hc0
  have e1 : (k - 1) * c = c * k - c := by ring
  have hlt : (k - 1) * c < (n : ℤ) := by rw [e1]; linarith
  have e2 : k * c = c * k := by ring
  have hle : (n : ℤ) ≤ k * c := by rw [e2]; linarith
  constructor
  · rw [show ((k : ℚ) - 1) = ((k - 1 : ℤ) : ℚ) by push_cast; ring,
      lt_div_iff₀ hcQ]
    exact_mod_cast hlt
  · rw [div_le_iff₀ hcQ]
    exact_mod_cast hle

/-- **C9.** For every readable text file and all page-size, margin,
font-size and leading inputs the parsers accept, if the computed
characters-per-page value is at least 1, then `estimate_pages` returns a
`PageEstimate` whose `estimated_pages` is
`max 1 ⌈character_count / chars_per_page⌉` — the source expression
`max(1, (char_count + chars_per_page - 1) // chars_per_page)` — and is
therefore at least 1.  (The division in the source is unguarded against
`chars_per_page = 0`, where Python raises `ZeroDivisionError`; the
hypothesis `1 ≤ chars_per_page` keeps the statement inside the claim's
premise.) -/
theorem claim_C9_estimated_pages_formula :
    ∀ (bridge : Command → Outcome) (pf : String → Option ℚ) (sq : ℚ → ℚ)
      (content ps ms : String) (fs : Int) (ld : Option ℚ)
      (est : EstimatePages.PageEstimate),
      EstimatePages.estimate_pages bridge pf sq content ps fs ms ld =
        .ok est →
      1 ≤ est.chars_per_page →
      est.estimated_pages =
        max 1 ⌈(est.character_count : ℚ) / (est.chars_per_page : ℚ)⌉
      ∧ 1 ≤ est.estimated_pages := by
  intro bridge pf sq content ps ms fs ld est heq hcpp
  unfold EstimatePages.estimate_pages at heq
  cases hps : EstimatePages.parse_page_size pf ps with
  | error e => rw [hps] at heq; cases heq
  | ok dims =>
      cases hms : EstimatePages.parse_margins pf ms with
      | error e => rw [hps, hms] at heq; cases heq
      | ok md =>
          rw [hps, hms] at heq
          simp only [EstimatePages.count_text] at heq
          cases heq
          refine ⟨?_, le_max_left 1 _⟩
          simp only []
          rw [fdiv_add_pred_eq_ceil _ _ hcpp]

/-- Witness for C9: a 2-character file on a letter page with 1-inch
margins and 12pt font gives 3510 characters per page and a 1-page
estimate, matching `max 1 ⌈2 / 3510⌉`. -/
theorem claim_C9_witness :
    EstimatePages.estimate_pages trivialBridge pfTest sqTest "hi" "letter"
        12 "1" none = .ok estC9
    ∧ (1 : Int) ≤ estC9.chars_per_page
    ∧ estC9.estimated_pages =
        max 1 ⌈(estC9.character_count : ℚ) / (estC9.chars_per_page : ℚ)⌉
    ∧ (1 : Int) ≤ estC9.estimated_pages := by
  have hps : EstimatePages.parse_page_size pfTest "letter" =
      .ok ((612 : ℚ), (792 : ℚ)) := rfl
  have hms : EstimatePages.parse_margins pfTest "1" =
      .ok (EstimatePages.Margins.mk ((1 : ℚ) * 72) ((1 : ℚ) * 72)
        ((1 : ℚ) * 72) ((1 : ℚ) * 72)) := rfl
  have hcpp : EstimatePages.estimate_chars_per_page sqTest
      (EstimatePages.calculate_text_area ((612 : ℚ), (792 : ℚ))
        (EstimatePages.Margins.mk ((1 : ℚ) * 72) ((1 : ℚ) * 72)
          ((1 : ℚ) * 72) ((1 : ℚ) * 72))) 12 none = 3510 := by
    unfold EstimatePages.estimate_chars_per_page
      EstimatePages.calculate_text_area EstimatePages.ratTrunc sqTest
    norm_num
  have heq : EstimatePages.estimate_pages trivialBridge pfTest sqTest "hi"
      "letter" 12 "1" none = .ok estC9 := by
    unfold EstimatePages.estimate_pages
    rw [hps, hms]
    simp only [EstimatePages.count_text]
    rw [hcpp]
    congr 1
  obtain ⟨h1, h2⟩ := claim_C9_estimated_pages_formula trivialBridge pfTest
    sqTest "hi" "letter" "1" 12 none estC9 heq (by decide)
  exact ⟨heq, by decide, h1, h2⟩

end AdobeMcp
